import Mathlib

/-
Verification development for the rental-market ingestion scripts
(bos_realtor_ingest.py, nyc_realtor_ingest.py, bos_redfin_ingest.py,
nyc_redfin_ingest.py, config.py, rental_pipeline.py).

The Python code is shallowly embedded: JSON values returned by
`response.json()` become the inductive type `Json` (Python `None` and JSON
`null` coincide after `json.loads`), dictionary/attribute access that can
raise becomes `Except String`, pandas DataFrames become lists of rows, and
the retry / pagination loops become explicit recursions over an abstract
stream of HTTP outcomes (the scripts' only I/O point).
-/

set_option autoImplicit false

/-- JSON values as produced by `response.json()`.  Python `None` and JSON
`null` are the same value after `json.loads`, so both are `Json.null`. -/
inductive Json where
  | null : Json
  | bool : Bool → Json
  | num : ℚ → Json
  | str : String → Json
  | arr : List Json → Json
  | obj : List (String × Json) → Json

/-- Is this value a Python `dict`? -/
def Json.isObj : Json → Bool
  | .obj _ => true
  | _ => false

/-- Is this value a Python `str`? -/
def Json.isStr : Json → Bool
  | .str _ => true
  | _ => false

/-- First-match association lookup; dictionaries built by `json.loads` have
unique keys, and Python lookup returns the stored value. -/
def lookupField : List (String × Json) → String → Option Json
  | [], _ => none
  | (k, v) :: rest, key => if k = key then some v else lookupField rest key

/-- Python `d.get(key, default)` for `d` already known to be a dict
(`Json.obj`); on any other value the attribute lookup `.get` raises
`AttributeError`, modelled as `.error`. -/
def dictGet (j : Json) (key : String) (default : Json) : Except String Json :=
  match j with
  | .obj fs => .ok ((lookupField fs key).getD default)
  | _ => .error "AttributeError: .get on non-dict"

/-- The value `dictGet` yields when it succeeds (total companion used to
state what the defensive accessors return on dict inputs). -/
def jsonGetD (j : Json) (key : String) (default : Json) : Json :=
  match j with
  | .obj fs => (lookupField fs key).getD default
  | _ => default

/-- Model of `safe_get(obj, *keys)` from all four ingestion scripts:
for each key, if the current value is a dict, step to `obj.get(key)`
(i.e. `null` when the key is absent); otherwise return `None`. -/
def safe_get : Json → List String → Json
  | j, [] => j
  | .obj fs, k :: ks => safe_get ((lookupField fs k).getD .null) ks
  | _, _ :: _ => .null

/-- Python truthiness of a JSON value (`if not data: ...`). -/
def pyTruthy : Json → Bool
  | .null => false
  | .bool b => b
  | .num q => q ≠ 0
  | .str s => s ≠ ""
  | .arr l => !l.isEmpty
  | .obj fs => !fs.isEmpty

/-- The `x or {}` idiom used around every `safe_get` call:
keep `x` when truthy, otherwise the empty dict. -/
def pyOrEmptyDict (j : Json) : Json :=
  if pyTruthy j then j else .obj []

/-- Python `str(x)` on the JSON values that reach it in these scripts
(`astype(str)` on an object column applies `str` elementwise):
`str(None) = "None"`, strings unchanged, booleans capitalised, numbers
rendered from their numerator when integral. -/
def pyStr : Json → String
  | .null => "None"
  | .bool true => "True"
  | .bool false => "False"
  | .num q => if q.den = 1 then toString q.num else toString q
  | .str s => s
  | .arr _ => "[...]"
  | .obj _ => "{...}"

/-- Python `base + x` for a string literal `base`: concatenation when `x`
is a string, `TypeError` otherwise (in particular when `x` is `None`). -/
def strPlus (base : String) (j : Json) : Except String String :=
  match j with
  | .str s => .ok (base ++ s)
  | _ => .error "TypeError: can only concatenate str to str"

deriving instance DecidableEq for Except

/-- Did the computation succeed? -/
def isOkE {α : Type} : Except String α → Bool
  | .ok _ => true
  | .error _ => false

namespace Realtor

/-- Flat record produced by `parse_listing` in bos_realtor_ingest.py and
nyc_realtor_ingest.py (the two functions are identical). -/
structure ListingRecord where
  listing_id : Json
  list_price : Json
  beds : Json
  baths : Json
  sqft : Json
  list_date : Json
  zip_code : Json
  latitude : Json
  longitude : Json
  address_line : Json
  url : String
  pet_cats : Json
  pet_dogs : Json

/-- Model of `parse_listing(item)` from bos_realtor_ingest.py lines 181-210 and
nyc_realtor_ingest.py lines 199-228 (identical bodies).  The four
intermediate objects go through `safe_get ... or {}`; the subsequent
`.get` calls raise `AttributeError` when the intermediate value is a
truthy non-dict, and the `url` concatenation raises `TypeError` when
`permalink` holds a non-string value. -/
def parse_listing (item : Json) : Except String ListingRecord := do
  let description := pyOrEmptyDict (safe_get item ["description"])
  let addr := pyOrEmptyDict (safe_get item ["location", "address"])
  let coords := pyOrEmptyDict (safe_get addr ["coordinate"])
  let pet_policy := pyOrEmptyDict (safe_get item ["pet_policy"])
  let listing_id ← dictGet item "listing_id" .null
  let list_price ← dictGet item "list_price" .null
  let beds ← dictGet description "beds" .null
  let baths ← dictGet description "baths_consolidated" .null
  let sqft ← dictGet description "sqft" .null
  let list_date ← dictGet item "list_date" .null
  let zip_code ← dictGet addr "postal_code" .null
  let latitude ← dictGet coords "lat" .null
  let longitude ← dictGet coords "lon" .null
  let address_line ← dictGet addr "line" .null
  let permalink ← dictGet item "permalink" (.str "")
  let url ← strPlus "https://www.realtor.com/rentals/details/" permalink
  let pet_cats ← dictGet pet_policy "cats" .null
  let pet_dogs ← dictGet pet_policy "dogs" .null
  pure {
    listing_id := listing_id, list_price := list_price, beds := beds,
    baths := baths, sqft := sqft, list_date := list_date,
    zip_code := zip_code, latitude := latitude, longitude := longitude,
    address_line := address_line, url := url,
    pet_cats := pet_cats, pet_dogs := pet_dogs }

end Realtor

namespace Redfin

/-- Flat record produced by `parse_listing` in bos_redfin_ingest.py and
nyc_redfin_ingest.py (the two functions are identical). -/
structure ListingRecord where
  listing_id : Json
  price_min : Json
  price_max : Json
  beds_min : Json
  beds_max : Json
  baths_min : Json
  baths_max : Json
  sqft_min : Json
  sqft_max : Json
  zip_code : Json
  latitude : Json
  longitude : Json
  address_line : Json
  url : String

/-- Model of `rentalExtension.get(key, {}).get(sub)`: the default `{}` applies only
when `key` is absent; an explicit `null` stored under `key` is returned
as-is and the second `.get` then raises `AttributeError`. -/
def getRange (ext : Json) (key sub : String) : Except String Json := do
  let range ← dictGet ext key (.obj [])
  dictGet range sub .null

/-- Model of `parse_listing(item)` from bos_redfin_ingest.py lines 189-219 and
nyc_redfin_ingest.py lines 197-227 (identical bodies). -/
def parse_listing (item : Json) : Except String ListingRecord := do
  let homeData := pyOrEmptyDict (safe_get item ["homeData"])
  let rentalExtension := pyOrEmptyDict (safe_get item ["rentalExtension"])
  let addr := pyOrEmptyDict (safe_get homeData ["addressInfo"])
  let coords := pyOrEmptyDict (safe_get addr ["centroid", "centroid"])
  let listing_id ← dictGet rentalExtension "rentalId" .null
  let price_min ← getRange rentalExtension "rentPriceRange" "min"
  let price_max ← getRange rentalExtension "rentPriceRange" "max"
  let beds_min ← getRange rentalExtension "bedRange" "min"
  let beds_max ← getRange rentalExtension "bedRange" "max"
  let baths_min ← getRange rentalExtension "bathRange" "min"
  let baths_max ← getRange rentalExtension "bathRange" "max"
  let sqft_min ← getRange rentalExtension "sqftRange" "min"
  let sqft_max ← getRange rentalExtension "sqftRange" "max"
  let zip_code ← dictGet addr "zip" .null
  let latitude ← dictGet coords "latitude" .null
  let longitude ← dictGet coords "longitude" .null
  let address_line ← dictGet addr "formattedStreetLine" .null
  let urlFragment ← dictGet homeData "url" (.str "")
  let url ← strPlus "https://www.redfin.com" urlFragment
  pure {
    listing_id := listing_id, price_min := price_min, price_max := price_max,
    beds_min := beds_min, beds_max := beds_max,
    baths_min := baths_min, baths_max := baths_max,
    sqft_min := sqft_min, sqft_max := sqft_max,
    zip_code := zip_code, latitude := latitude, longitude := longitude,
    address_line := address_line, url := url }

end Redfin

/-
HTTP fetch with retry.  The single I/O point of every script is
`requests.get` inside the `for attempt in range(1, max_retries + 1)` loop;
we abstract it as a stream assigning to each attempt number its outcome.
A successful (2xx) response carries the parsed listing collection
(`json_data.get("properties", [])` resp. `json_data.get("data", [])` with
`json_data.get("totalResultCount", 0)`); the exceptional outcomes mirror
the three `except` clauses.  Each model returns the Python return value
together with the list of backoff waits slept, in order.
-/

/-- One attempt's outcome for the Realtor endpoints. -/
inductive Attempt where
  | success : List Json → Attempt
  | readTimeout : Attempt
  | httpError : ℕ → Attempt
  | transportError : Attempt

/-- One attempt's outcome for the Redfin endpoints (a page also declares
`totalResultCount`). -/
inductive RAttempt where
  | success : List Json → ℕ → RAttempt
  | readTimeout : RAttempt
  | httpError : ℕ → RAttempt
  | transportError : RAttempt

namespace BosRealtor

/-- Attempt loop of `fetch_realtor_listings` in bos_realtor_ingest.py
lines 125-152: `rem` attempts remain, `attempt` is the 1-based counter,
`backoff` is `backoff_factor` (default 2).  A timeout or a 504 sleeps
`backoff_factor * attempt` and retries; any other HTTP error and any other
request exception return `[]` at once; exhaustion returns `[]`. -/
def fetchGo (resp : ℕ → Attempt) (backoff : ℕ) :
    ℕ → ℕ → List ℕ → List Json × List ℕ
  | 0, _, waits => ([], waits)
  | rem + 1, attempt, waits =>
    match resp attempt with
    | .success props => (props, waits)
    | .readTimeout => fetchGo resp backoff rem (attempt + 1) (waits ++ [backoff * attempt])
    | .httpError s =>
      if s = 504 then fetchGo resp backoff rem (attempt + 1) (waits ++ [backoff * attempt])
      else ([], waits)
    | .transportError => ([], waits)

/-- Model of `fetch_realtor_listings(zipcode, page)` with the default
`max_retries = 3`, `backoff_factor = 2` (bos_realtor_ingest.py line 103). -/
def fetch_realtor_listings (resp : ℕ → Attempt) : List Json × List ℕ :=
  fetchGo resp 2 3 1 []

end BosRealtor

namespace NycRealtor

/-- Attempt loop of `fetch_realtor_listings` in nyc_realtor_ingest.py
lines 136-170: a timeout sleeps `backoff_factor * attempt`; a 429 or 504
sleeps `(2 ^ attempt) * 5`; any other HTTP error and any other request
exception return `[]` at once; exhaustion returns `[]`. -/
def fetchGo (resp : ℕ → Attempt) (backoff : ℕ) :
    ℕ → ℕ → List ℕ → List Json × List ℕ
  | 0, _, waits => ([], waits)
  | rem + 1, attempt, waits =>
    match resp attempt with
    | .success props => (props, waits)
    | .readTimeout => fetchGo resp backoff rem (attempt + 1) (waits ++ [backoff * attempt])
    | .httpError s =>
      if s = 429 ∨ s = 504 then
        fetchGo resp backoff rem (attempt + 1) (waits ++ [2 ^ attempt * 5])
      else ([], waits)
    | .transportError => ([], waits)

/-- Model of `fetch_realtor_listings(zipcode, page)` with the default
`max_retries = 5`, `backoff_factor = 2` (nyc_realtor_ingest.py line 114). -/
def fetch_realtor_listings (resp : ℕ → Attempt) : List Json × List ℕ :=
  fetchGo resp 2 5 1 []

end NycRealtor

namespace Redfin

/-- Attempt loop of `fetch_redfin_listings`, identical in
bos_redfin_ingest.py lines 125-160 and nyc_redfin_ingest.py lines 133-168:
a timeout or a 504 sleeps `backoff_factor * attempt` and retries; any
other HTTP error, any other request exception, and exhaustion all return
`([], 0)`. -/
def fetchGo (resp : ℕ → RAttempt) (backoff : ℕ) :
    ℕ → ℕ → List ℕ → (List Json × ℕ) × List ℕ
  | 0, _, waits => (([], 0), waits)
  | rem + 1, attempt, waits =>
    match resp attempt with
    | .success results total => ((results, total), waits)
    | .readTimeout => fetchGo resp backoff rem (attempt + 1) (waits ++ [backoff * attempt])
    | .httpError s =>
      if s = 504 then fetchGo resp backoff rem (attempt + 1) (waits ++ [backoff * attempt])
      else (([], 0), waits)
    | .transportError => (([], 0), waits)

/-- Model of `fetch_redfin_listings(zipcode, page)` with the default
`max_retries = 3`, `backoff_factor = 2`. -/
def fetch_redfin_listings (resp : ℕ → RAttempt) : (List Json × ℕ) × List ℕ :=
  fetchGo resp 2 3 1 []

end Redfin

/-
Pagination.  The per-partition `while True` loops are driven by what each
page's fetch returns, abstracted as a stream from page number (1-based) to
the fetched value.  The loops are modelled with explicit fuel (`none` =
fuel exhausted before the loop broke); the termination claims identify
fuel amounts on which the loop provably breaks on its own.  The result
pairs the accumulated raw items with the last page number requested.
The per-item `parse_listing` mapping inside the loop preserves the item
count, so raw items are accumulated here; the record-level processing is
modelled separately in the `fetch_and_clean_zip` functions below.
-/

/-- Short-page loop of `fetch_and_clean_zip` (bos_realtor_ingest.py lines
230-246, nyc_realtor_ingest.py lines 249-272): break on an empty page
(`if not data: break`), otherwise accumulate and break after the first
page with fewer than 200 items (`if len(data) < 200: break`). -/
def collectShortGo (pageData : ℕ → List Json) :
    ℕ → ℕ → List Json → Option (List Json × ℕ)
  | 0, _, _ => none
  | fuel + 1, page, acc =>
    let data := pageData page
    if data.isEmpty then some (acc, page)
    else if data.length < 200 then some (acc ++ data, page)
    else collectShortGo pageData fuel (page + 1) (acc ++ data)

/-- Short-page pagination started at page 1 with the given fuel. -/
def collectShort (pageData : ℕ → List Json) (fuel : ℕ) : Option (List Json × ℕ) :=
  collectShortGo pageData fuel 1 []

/-- Declared-total loop of `fetch_and_clean_zip` (bos_redfin_ingest.py
lines 240-262, nyc_redfin_ingest.py lines 249-279): `total` is captured
from the first response (`if total_count is None: total_count = count`);
break on an empty result list, otherwise accumulate and break once
`len(listings) >= total_count`. -/
def collectTotalGo (pageData : ℕ → List Json × ℕ) :
    ℕ → ℕ → Option ℕ → List Json → Option (List Json × ℕ)
  | 0, _, _, _ => none
  | fuel + 1, page, totalOpt, acc =>
    let results := (pageData page).1
    let total := totalOpt.getD (pageData page).2
    if results.isEmpty then some (acc, page)
    else
      let acc' := acc ++ results
      if total ≤ acc'.length then some (acc', page)
      else collectTotalGo pageData fuel (page + 1) (some total) acc'

/-- Declared-total pagination started at page 1, with fuel
`(declared total of page 1) + 2`, which the termination theorem shows is
always enough for the loop to break on its own. -/
def collectTotal (pageData : ℕ → List Json × ℕ) : Option (List Json × ℕ) :=
  collectTotalGo pageData ((pageData 1).2 + 2) 1 none []

/-
Free-text numeric parsing.
-/

/-- Python `.strip()`: drop whitespace from both ends. -/
def pyStripWs (cs : List Char) : List Char :=
  ((cs.dropWhile Char.isWhitespace).reverse.dropWhile Char.isWhitespace).reverse

/-- A character the extraction pattern matches (digit or dot). -/
def isTokChar (c : Char) : Bool := c.isDigit || c = '.'

/-- Model of `.str.extract(r'([\d\.]+)')[0]` elementwise: the first maximal run of
digit-or-dot characters, `none` (pandas NaN) when there is none. -/
def firstToken : List Char → Option (List Char)
  | [] => none
  | c :: rest => if isTokChar c then some (c :: rest.takeWhile isTokChar) else firstToken rest

/-- Value of a list of decimal digit characters. -/
def natOfDigits (cs : List Char) : ℕ :=
  cs.foldl (fun acc c => 10 * acc + (c.toNat - 48)) 0

/-- Python `float(s)` on the digit-and-dot strings that reach it in these
scripts: defined when every character is a digit or a dot, at least one
digit occurs, and at most one dot occurs (so `float(".")` and
`float("1.2.3")` fail, and `float("2.5 ba")` fails on the space).
Exotic accepted forms of Python floats (signs, exponents) never reach
these call sites and are not modelled. -/
def parseFloatQ (cs : List Char) : Option ℚ :=
  if cs.all isTokChar && cs.any Char.isDigit && Nat.ble (cs.count '.') 1 then
    let intPart := cs.takeWhile (fun c => c ≠ '.')
    let fracPart := (cs.dropWhile (fun c => c ≠ '.')).drop 1
    some ((natOfDigits intPart : ℚ) + (natOfDigits fracPart : ℚ) / (10 : ℚ) ^ fracPart.length)
  else none

namespace BosRealtor

/-- Elementwise behaviour of `clean_numeric_column` (bos_realtor_ingest.py
lines 303-320): `series.astype(str)` renders each value with `str`,
`.str.extract(r'([\d\.]+)')[0]` keeps the first digit-or-dot run (NaN when
there is none, which `.astype(float)` keeps as NaN, modelled `none`), and
`.astype(float)` raises `ValueError` when the extracted token is not a
valid float literal (e.g. a bare "."). -/
def clean_numeric_value (v : Json) : Except String (Option ℚ) :=
  match firstToken (pyStr v).toList with
  | none => .ok none
  | some tok =>
    match parseFloatQ tok with
    | some q => .ok (some q)
    | none => .error "ValueError: could not convert string to float"

end BosRealtor

namespace NycRealtor

/-- The baths sanitisation inside `fetch_and_clean_zip`
(nyc_realtor_ingest.py lines 257-261):
`float(rec["baths"].replace("+", "").strip()) if rec.get("baths") else None`.
A falsy value (None, "") yields None; a truthy non-string raises
`AttributeError` at `.replace`; a truthy string has its "+" signs removed,
is stripped, and goes through `float`, which raises `ValueError` when the
remainder is not a float literal (e.g. "2.5 ba"). -/
def sanitize_baths (b : Json) : Except String (Option ℚ) :=
  if pyTruthy b then
    match b with
    | .str s =>
      match parseFloatQ (pyStripWs (s.toList.filter (fun c => c ≠ '+'))) with
      | some q => .ok (some q)
      | none => .error "ValueError: could not convert string to float"
    | _ => .error "AttributeError: .replace on non-str"
  else .ok none

end NycRealtor

namespace NycRedfin

/-- The zip sanitisation inside `fetch_and_clean_zip`
(nyc_redfin_ingest.py line 265):
`str(rec["zip_code"])[:5].strip() if "zip_code" in rec else None`.
`parse_listing` always sets the "zip_code" key, so the condition is always
true and the `else None` branch is dead; in particular a missing zip
(value None) becomes `str(None)[:5].strip() = "None"`. -/
def sanitize_zip (z : Json) : Json :=
  Json.str (String.mk (pyStripWs ((pyStr z).toList.take 5)))

end NycRedfin

/-- The spec sentence "zip_code is either a 5-character numeric string or
null" as a decidable predicate on the stored value (used to compare the
code's behaviour against the spec's invariant). -/
def zipInvariant : Json → Bool
  | .null => true
  | .str s => s.length == 5 && s.toList.all Char.isDigit
  | _ => false

/-
Deduplication (Aggregator).
-/

/-- Core of `df.drop_duplicates(subset=key, keep="first")` on rows in
order: keep a row iff its key was not seen on an earlier kept row. -/
def dedupKeepFirstGo {α : Type} (key : α → String) :
    List α → List String → List α
  | [], _ => []
  | r :: rs, seen =>
    if key r ∈ seen then dedupKeepFirstGo key rs seen
    else r :: dedupKeepFirstGo key rs (key r :: seen)

/-- Model of `df.drop_duplicates(subset="listing_id", keep="first")`. -/
def drop_duplicates_first {α : Type} (key : α → String) (rows : List α) : List α :=
  dedupKeepFirstGo key rows []

/-- A master-frame row as the dedup step sees it: the `listing_id` column
plus the untouched remaining columns. -/
structure IdRow where
  listing_id : Json
  rest : List (String × Json)

/-- The key `drop_duplicates` compares after the preceding
`master_df["listing_id"] = master_df["listing_id"].astype(str)` coercion
(present in all four scripts): the Python string form of the stored id,
so a missing id (None) yields the literal string "None". -/
def idKey (r : IdRow) : String := pyStr r.listing_id

/-- The two aggregation steps
`master_df["listing_id"] = master_df["listing_id"].astype(str)` and
`master_df = master_df.drop_duplicates(subset="listing_id", keep="first")`
(bos_realtor_ingest.py lines 274-278, nyc_realtor_ingest.py lines 312-316,
bos_redfin_ingest.py lines 292-296, nyc_redfin_ingest.py lines 307-311). -/
def aggregateDedup (rows : List IdRow) : List IdRow :=
  drop_duplicates_first idKey
    (rows.map (fun r => { r with listing_id := Json.str (pyStr r.listing_id) }))

/-
Loader.  Each script's load section is
    with engine.begin() as conn:
        conn.execute(text("TRUNCATE TABLE <dest>"))
    master_df.to_sql(<dest>, engine, if_exists="append", index=False)
i.e. two separate database transactions: the `engine.begin()` block
commits the TRUNCATE on exiting the `with`, and `to_sql` then inserts the
aggregated rows in its own transaction.  The table is abstracted to its
row count; a failing transaction rolls back its own effects only and
aborts the run.
-/

/-- One database transaction issued by the load section. -/
inductive Txn where
  | truncate : Txn
  | insert : ℕ → Txn

/-- Effect of a committed transaction on the destination table's row count
(the staging table is append-free across runs, so `insert n` on the
truncated table yields `rows + n`). -/
def applyTxn (rows : ℕ) : Txn → ℕ
  | .truncate => 0
  | .insert n => rows + n

/-- Run transactions in order: a transaction on which `fails` holds rolls
back (so the table keeps the state the previous transactions committed)
and aborts the run with failure. -/
def runTxns (rows : ℕ) : List Txn → (Txn → Bool) → ℕ × Bool
  | [], _ => (rows, true)
  | t :: ts, fails =>
    if fails t then (rows, false) else runTxns (applyTxn rows t) ts fails

/-- The transaction sequence the load section issues for `n` aggregated
rows: first the TRUNCATE transaction, then the insert transaction. -/
def loadScript (n : ℕ) : List Txn := [.truncate, .insert n]

/-- Row count of the destination table after a run that starts with
`before` rows and loads `n` aggregated rows, with the given per-transaction
failure behaviour; the Bool reports whether the run completed. -/
def runLoad (before n : ℕ) (fails : Txn → Bool) : ℕ × Bool :=
  runTxns before (loadScript n) fails

/-
DataFrame fragment used by `fetch_and_clean_zip`.  A frame built by
`pd.DataFrame(list_of_dicts)` is its list of rows; its columns are the
keys of the rows (all rows built from `parse_listing` share one key
list, and `pd.DataFrame([])` has no columns at all).  Selecting an absent
column raises `KeyError`.
-/

/-- A pandas DataFrame built from a list of uniform row-dicts. -/
structure DF where
  rows : List (List (String × Json))

/-- The frame's columns: the keys of its first row; a frame built from an
empty list has no columns. -/
def DF.cols (df : DF) : List String :=
  (df.rows.head?.map (List.map Prod.fst)).getD []

/-- Model of `df[c]`: the column's values, or `KeyError` when the column is absent
(notably on the columnless empty frame). -/
def DF.getCol (df : DF) (c : String) : Except String (List Json) :=
  if c ∈ df.cols then .ok (df.rows.map (fun r => (lookupField r c).getD .null))
  else .error ("KeyError: " ++ c)

/-- Replace field `c` of a row (append it when absent). -/
def setField : List (String × Json) → String → Json → List (String × Json)
  | [], c, v => [(c, v)]
  | (k, w) :: rest, c, v =>
    if k = c then (c, v) :: rest else (k, w) :: setField rest c v

/-- Model of `df[c] = vals`: assign the column elementwise. -/
def DF.setCol (df : DF) (c : String) (vals : List Json) : DF :=
  ⟨(df.rows.zip vals).map (fun rv => setField rv.1 c rv.2)⟩

/-- The dictionary `BOS_ZIP_TO_NEIGHBORHOOD` (bos_realtor_ingest.py lines 54-83 and
bos_redfin_ingest.py lines 53-82). -/
def BOS_ZIP_TO_NEIGHBORHOOD : List (String × String) :=
  [("02108", "Beacon Hill"), ("02109", "Financial District"),
   ("02110", "Financial District"), ("02111", "Chinatown"),
   ("02113", "North End"), ("02114", "West End"),
   ("02115", "Longwood"), ("02116", "Back Bay"),
   ("02118", "South End"), ("02119", "Roxbury"),
   ("02120", "Mission Hill"), ("02121", "Dorchester"),
   ("02122", "Dorchester"), ("02124", "Dorchester"),
   ("02125", "Dorchester"), ("02126", "Mattapan"),
   ("02127", "South Boston"), ("02128", "East Boston"),
   ("02129", "Charlestown"), ("02130", "Jamaica Plain"),
   ("02131", "Roslindale"), ("02132", "West Roxbury"),
   ("02134", "Allston"), ("02135", "Brighton"),
   ("02136", "Hyde Park"), ("02199", "Back Bay"),
   ("02210", "Seaport"), ("02215", "Fenway")]

/-- Model of `series.map(BOS_ZIP_TO_NEIGHBORHOOD)` elementwise: dictionary lookup,
NaN (modelled null) for unmapped values. -/
def mapNeighborhood (z : Json) : Json :=
  match z with
  | .str s =>
    match (BOS_ZIP_TO_NEIGHBORHOOD.find? (fun p => p.1 = s)).map Prod.snd with
    | some n => Json.str n
    | none => Json.null
  | _ => Json.null

namespace Realtor

/-- The row-dict a parsed Realtor record contributes to
`pd.DataFrame(listings)`, in the key order `parse_listing` builds it. -/
def recordRow (r : ListingRecord) : List (String × Json) :=
  [("listing_id", r.listing_id), ("list_price", r.list_price),
   ("beds", r.beds), ("baths", r.baths), ("sqft", r.sqft),
   ("list_date", r.list_date), ("zip_code", r.zip_code),
   ("latitude", r.latitude), ("longitude", r.longitude),
   ("address_line", r.address_line), ("url", Json.str r.url),
   ("pet_cats", r.pet_cats), ("pet_dogs", r.pet_dogs)]

end Realtor

namespace BosRealtor

/-- Model of `fetch_and_clean_zip(zipcode)` from bos_realtor_ingest.py lines
216-256.  `toDT` abstracts the elementwise `pd.to_datetime(...,
errors="coerce")` (its value never matters to the properties proved
here).  The outer `Option` is pagination fuel; the `Except` carries any
exception the body raises.  The page items are parsed after collection —
the source parses page by page, which yields the same records and the
same raised-or-not outcome whenever pagination completes.  For a ZIP
whose pagination yields no listings, `pd.DataFrame([])` has no columns
and the column access `df["list_date"]` raises `KeyError`, which nothing
in this script catches. -/
def fetch_and_clean_zip (toDT : Json → Json) (pageData : ℕ → List Json)
    (fuel : ℕ) : Option (Except String DF) :=
  (collectShort pageData fuel).map (fun res => do
    let recs ← res.1.mapM Realtor.parse_listing
    let df : DF := ⟨recs.map Realtor.recordRow⟩
    let dates ← df.getCol "list_date"
    let df := df.setCol "list_date" (dates.map toDT)
    let zips ← df.getCol "zip_code"
    let df := df.setCol "neighborhood" (zips.map mapNeighborhood)
    pure df)

end BosRealtor

namespace NycRealtor

/-- Per-item record processing inside the pagination loop of
`fetch_and_clean_zip` (nyc_realtor_ingest.py lines 254-264):
parse, sanitise the baths value, attach the borough. -/
def cleanItem (borough : String) (item : Json) :
    Except String (List (String × Json)) := do
  let r ← Realtor.parse_listing item
  let baths ← sanitize_baths r.baths
  let bathsJson := match baths with
    | some q => Json.num q
    | none => Json.null
  pure (Realtor.recordRow { r with baths := bathsJson } ++ [("borough", Json.str borough)])

/-- Model of `fetch_and_clean_zip(zipcode, borough)` from nyc_realtor_ingest.py
lines 234-293.  Unlike the Boston variant, an empty listing accumulation
returns an empty frame up front (`if not listings: return pd.DataFrame()`)
and the DataFrame section sits in a `try` whose `except KeyError` /
`except Exception` handlers return an empty frame, so a `KeyError` there
is absorbed rather than raised. -/
def fetch_and_clean_zip (toDT : Json → Json) (pageData : ℕ → List Json)
    (fuel : ℕ) (borough : String) : Option (Except String DF) :=
  (collectShort pageData fuel).map (fun res => do
    let rows ← res.1.mapM (cleanItem borough)
    if rows.isEmpty then pure (⟨[]⟩ : DF)
    else
      -- "list_date" is a key of every row built above, so the
      -- `if "list_date" not in df.columns` guard never fires, and the
      -- except-handlers (which would return an empty frame) stay idle.
      let df : DF := ⟨rows⟩
      match df.getCol "list_date" with
      | .ok dates => pure (df.setCol "list_date" (dates.map toDT))
      | .error _ => pure (⟨[]⟩ : DF))

end NycRealtor

/-
Claim theorems.
-/

/-- C1 counterexample: the load is not atomic.  With 3 rows present
before the run and an insert transaction that fails, the destination
table ends with 0 rows — the TRUNCATE already committed in its own
`engine.begin()` block — so the claimed equality of post-failure and
pre-run row counts is false. -/
theorem C1_load_not_atomic_counterexample :
    (runLoad 3 5 (fun t => match t with | .truncate => false | .insert _ => true)).1 = 0 ∧
    (runLoad 3 5 (fun t => match t with | .truncate => false | .insert _ => true)).1 ≠ 3 := by
  exact ⟨rfl, by decide⟩

/-- C1 (amended): the delete and the insert are two separate
transactions: the TRUNCATE commits in its own `engine.begin()` block
before `to_sql` starts, so when the insertion of the typed rows fails
partway the run aborts with the destination table empty (0 rows) — prior
data is lost, not preserved; only a fully successful run leaves the `n`
aggregated rows. -/
theorem C1_truncate_commits_before_insert :
    (∀ (before n : ℕ) (fails : Txn → Bool),
      fails .truncate = false → fails (.insert n) = true →
      runLoad before n fails = (0, false)) ∧
    (∀ before n : ℕ, runLoad before n (fun _ => false) = (n, true)) := by
  constructor
  · intro before n fails hT hI
    simp [runLoad, loadScript, runTxns, hT, hI, applyTxn]
  · intro before n
    simp [runLoad, loadScript, runTxns, applyTxn]

/-- C1 witness: the amended statement applied to a table of 3 rows and a
load of 5 rows, with a failing and a succeeding insert transaction. -/
theorem C1_truncate_commits_before_insert_witness :
    runLoad 3 5 (fun t => match t with | .truncate => false | .insert _ => true) = (0, false) ∧
    runLoad 3 5 (fun _ => false) = (5, true) :=
  ⟨C1_truncate_commits_before_insert.1 3 5 _ rfl rfl,
   C1_truncate_commits_before_insert.2 3 5⟩

/-- C4 (code bug at the Boston Realtor loop): a partition whose
pagination yields zero records does not merely contribute an empty
dataset there — `pd.DataFrame([])` has no columns, so the following
`df["list_date"]` access raises `KeyError`, which nothing in
bos_realtor_ingest.py catches, halting the whole run; the NYC variant of
the same loop guards the case (`if not listings: return pd.DataFrame()`)
and continues.  Quantifying over `toDT` shows the outcome is independent
of the abstracted `pd.to_datetime`. -/
theorem C4_empty_partition_crashes_bos_loop :
    (∀ toDT : Json → Json, BosRealtor.fetch_and_clean_zip toDT (fun _ => []) 1 =
      some (.error "KeyError: list_date")) ∧
    (∀ (toDT : Json → Json) (borough : String),
      NycRealtor.fetch_and_clean_zip toDT (fun _ => []) 1 borough =
        some (.ok (⟨[]⟩ : DF))) :=
  ⟨fun _ => rfl, fun _ _ => rfl⟩

/-- C9 counterexample: a Redfin record with no postal code does not keep
a null zip_code in the NYC pipeline — the sanitisation turns the stored
None into `str(None)[:5].strip() = "None"`, a non-null value that is not
a 5-character numeric string. -/
theorem C9_missing_zip_becomes_None_counterexample :
    (Redfin.parse_listing (Json.obj [])).map
        (fun r => NycRedfin.sanitize_zip r.zip_code) = .ok (Json.str "None") ∧
    zipInvariant (Json.str "None") = false ∧
    Json.str "None" ≠ Json.null := by
  refine ⟨rfl, rfl, ?_⟩
  intro h
  exact Json.noConfusion h

/-- C9 (amended): only the NYC Redfin pipeline rewrites `zip_code`, and
it always produces a string: the raw value's `str` form truncated to at
most 5 characters and stripped — `None` becomes the literal string
"None", a well-formed "02116" is kept, and a short "0211" stays 4
characters (no padding), so the result is not guaranteed to satisfy the
invariant "5-character numeric string or null".  `parse_listing` itself
(the only zip handling in the Boston Redfin pipeline) stores the raw
value unchanged. -/
theorem C9_zip_sanitization_behaviour :
    (∀ z : Json, ∃ s : String, NycRedfin.sanitize_zip z = Json.str s) ∧
    NycRedfin.sanitize_zip Json.null = Json.str "None" ∧
    NycRedfin.sanitize_zip (Json.str "02116") = Json.str "02116" ∧
    zipInvariant (NycRedfin.sanitize_zip (Json.str "02116")) = true ∧
    NycRedfin.sanitize_zip (Json.str "0211") = Json.str "0211" ∧
    zipInvariant (NycRedfin.sanitize_zip (Json.str "0211")) = false ∧
    (Redfin.parse_listing (Json.obj [("homeData", Json.obj [("addressInfo",
        Json.obj [("zip", Json.num 2116)])])])).map (fun r => r.zip_code) =
      .ok (Json.num 2116) := by
  exact ⟨fun z => ⟨_, rfl⟩, rfl, rfl, rfl, rfl, rfl, rfl⟩

/-- C7 counterexample: in the NYC Realtor pipeline the baths value
"2.5 ba" does not parse to 2.5 — `float("2.5 ba")` raises `ValueError`
(the sanitisation only strips "+"), so the claim that every input is
reduced to its first numeric token without error fails on the cited
code. -/
theorem C7_nyc_baths_raises_counterexample :
    isOkE (NycRealtor.sanitize_baths (Json.str "2.5 ba")) = false := rfl

/-- C3 counterexample: `parse_listing` is not total on all JSON objects.
On `{"description": "x"}` the Realtor variant fails ("x" is truthy, so
`"x" or {}` keeps it and `"x".get("beds")` raises `AttributeError`), and
on `{"rentalExtension": {"rentPriceRange": null}}` the Redfin variant
fails (`.get("rentPriceRange", {})` returns the stored null, whose
`.get("min")` raises). -/
theorem C3_parse_listing_not_total_counterexample :
    isOkE (Realtor.parse_listing (Json.obj [("description", Json.str "x")])) = false ∧
    isOkE (Redfin.parse_listing
      (Json.obj [("rentalExtension", Json.obj [("rentPriceRange", Json.null)])])) = false :=
  ⟨rfl, rfl⟩

/-- C2 counterexample: HTTP 429 is not retryable under the lenient
policy.  On a stream whose first attempt returns 429 and whose second
attempt would succeed with one listing, bos_realtor_ingest.py's fetch
returns `[]` immediately with no backoff waits, while the stricter NYC
policy on the same stream retries (a single `(2^1)*5 = 10` second wait)
and obtains the listing. -/
theorem C2_lenient_429_not_retried_counterexample :
    BosRealtor.fetch_realtor_listings
      (fun a => if a = 1 then .httpError 429 else .success [Json.null]) = ([], []) ∧
    NycRealtor.fetch_realtor_listings
      (fun a => if a = 1 then .httpError 429 else .success [Json.null]) =
      ([Json.null], [10]) :=
  ⟨rfl, rfl⟩

/-- C2 (amended): per attempt, a 504 is retryable under both policies and
a 429 only under the stricter one (nyc_realtor_ingest.py), which sleeps
`(2 ^ attempt) * 5` for both statuses; the lenient policy
(bos_realtor_ingest.py and the two Redfin scripts) sleeps
`backoff_factor * attempt` for a 504 and treats a 429, like every other
HTTP error status, as fatal for that (partition, page): the fetch returns
the empty value at once, with no further attempt and no wait. -/
theorem C2_retry_classification :
    (∀ (resp : ℕ → Attempt) (b rem attempt : ℕ) (waits : List ℕ) (s : ℕ),
      (s = 429 ∨ s = 504) → resp attempt = .httpError s →
      NycRealtor.fetchGo resp b (rem + 1) attempt waits =
        NycRealtor.fetchGo resp b rem (attempt + 1) (waits ++ [2 ^ attempt * 5])) ∧
    (∀ (resp : ℕ → Attempt) (b rem attempt : ℕ) (waits : List ℕ) (s : ℕ),
      ¬(s = 429 ∨ s = 504) → resp attempt = .httpError s →
      NycRealtor.fetchGo resp b (rem + 1) attempt waits = ([], waits)) ∧
    (∀ (resp : ℕ → Attempt) (b rem attempt : ℕ) (waits : List ℕ),
      resp attempt = .httpError 504 →
      BosRealtor.fetchGo resp b (rem + 1) attempt waits =
        BosRealtor.fetchGo resp b rem (attempt + 1) (waits ++ [b * attempt])) ∧
    (∀ (resp : ℕ → Attempt) (b rem attempt : ℕ) (waits : List ℕ) (s : ℕ),
      s ≠ 504 → resp attempt = .httpError s →
      BosRealtor.fetchGo resp b (rem + 1) attempt waits = ([], waits)) ∧
    (∀ (resp : ℕ → RAttempt) (b rem attempt : ℕ) (waits : List ℕ),
      resp attempt = .httpError 504 →
      Redfin.fetchGo resp b (rem + 1) attempt waits =
        Redfin.fetchGo resp b rem (attempt + 1) (waits ++ [b * attempt])) ∧
    (∀ (resp : ℕ → RAttempt) (b rem attempt : ℕ) (waits : List ℕ) (s : ℕ),
      s ≠ 504 → resp attempt = .httpError s →
      Redfin.fetchGo resp b (rem + 1) attempt waits = (([], 0), waits)) := by
  refine ⟨?_, ?_, ?_, ?_, ?_, ?_⟩
  · intro resp b rem attempt waits s hs hresp
    rw [NycRealtor.fetchGo, hresp]
    simp only [if_pos hs]
  · intro resp b rem attempt waits s hs hresp
    rw [NycRealtor.fetchGo, hresp]
    simp only [if_neg hs]
  · intro resp b rem attempt waits hresp
    rw [BosRealtor.fetchGo, hresp]
    simp
  · intro resp b rem attempt waits s hs hresp
    rw [BosRealtor.fetchGo, hresp]
    simp only [if_neg hs]
  · intro resp b rem attempt waits hresp
    rw [Redfin.fetchGo, hresp]
    simp
  · intro resp b rem attempt waits s hs hresp
    rw [Redfin.fetchGo, hresp]
    simp only [if_neg hs]

/-- C2 witness: the classification applied at attempt 1 of concrete
streams: a 429 retried by the strict policy (wait `2^1*5 = 10`), a 429
fatal for the lenient policy, and a 504 retried by the lenient policy
(wait `2*1 = 2`). -/
theorem C2_retry_classification_witness :
    NycRealtor.fetchGo (fun _ => .httpError 429) 2 5 1 [] =
      NycRealtor.fetchGo (fun _ => .httpError 429) 2 4 2 [10] ∧
    BosRealtor.fetchGo (fun _ => .httpError 429) 2 3 1 [] = ([], []) ∧
    BosRealtor.fetchGo (fun _ => .httpError 504) 2 3 1 [] =
      BosRealtor.fetchGo (fun _ => .httpError 504) 2 2 2 [2] :=
  ⟨C2_retry_classification.1 _ 2 4 1 [] 429 (Or.inl rfl) rfl,
   C2_retry_classification.2.2.2.1 _ 2 2 1 [] 429 (by decide) rfl,
   C2_retry_classification.2.2.1 _ 2 2 1 [] rfl⟩

/-- A string with no digit-or-dot character has no extractable token. -/
theorem firstToken_eq_none {cs : List Char} (h : ∀ c ∈ cs, isTokChar c = false) :
    firstToken cs = none := by
  induction cs with
  | nil => rfl
  | cons c rest ih =>
    rw [firstToken, if_neg]
    · exact ih (fun d hd => h d (List.mem_cons_of_mem _ hd))
    · simp [h c (List.mem_cons_self c rest)]

/-- C7 (amended): in the Boston Realtor pipeline `clean_numeric_column`
reduces each value to the first digit-or-dot run of its `str` form and
parses it as a float: "1+" gives 1.0, "2.5 ba" gives 2.5, and empty,
absent, or token-free values give null, not an error.  The NYC Realtor
pipeline only strips "+" from the baths text: "1+" gives 1.0 and empty or
absent values give null, but a value like "2.5 ba" raises `ValueError`
instead of parsing to 2.5. -/
theorem C7_numeric_token_parsing :
    (∀ s : String, (∀ c ∈ s.toList, isTokChar c = false) →
      BosRealtor.clean_numeric_value (Json.str s) = .ok none) ∧
    BosRealtor.clean_numeric_value (Json.str "1+") = .ok (some 1) ∧
    BosRealtor.clean_numeric_value (Json.str "2.5 ba") = .ok (some (5 / 2 : ℚ)) ∧
    BosRealtor.clean_numeric_value (Json.str "") = .ok none ∧
    BosRealtor.clean_numeric_value Json.null = .ok none ∧
    NycRealtor.sanitize_baths (Json.str "1+") = .ok (some 1) ∧
    NycRealtor.sanitize_baths (Json.str "") = .ok none ∧
    NycRealtor.sanitize_baths Json.null = .ok none ∧
    NycRealtor.sanitize_baths (Json.str "2.5 ba") =
      .error "ValueError: could not convert string to float" := by
  refine ⟨?_, ?_, ?_, rfl, rfl, ?_, rfl, rfl, rfl⟩
  · intro s h
    simp only [BosRealtor.clean_numeric_value, pyStr]
    rw [firstToken_eq_none h]
  · simp +decide [BosRealtor.clean_numeric_value, pyStr, firstToken, parseFloatQ, natOfDigits]
  · simp +decide [BosRealtor.clean_numeric_value, pyStr, firstToken, parseFloatQ, natOfDigits]
    norm_num
  · simp +decide [NycRealtor.sanitize_baths, pyTruthy, pyStripWs, parseFloatQ, natOfDigits]

/-- C7 witness: the token-free clause applied to the literal "studio". -/
theorem C7_numeric_token_parsing_witness :
    BosRealtor.clean_numeric_value (Json.str "studio") = .ok none :=
  C7_numeric_token_parsing.1 "studio" (by decide)

/-- An `Except.ok` on the left of a bind steps to the continuation. -/
theorem exceptOkBind {α β : Type} (a : α) (f : α → Except String β) :
    (Except.ok a >>= f : Except String β) = f a := rfl

/-- On a dict, `.get key default` succeeds with the looked-up value. -/
theorem dictGet_of_isObj {j : Json} (h : j.isObj = true) (key : String) (d : Json) :
    dictGet j key d = .ok (jsonGetD j key d) := by
  cases j <;> simp_all [Json.isObj, dictGet, jsonGetD]

/-- On a string, concatenation with a literal base succeeds. -/
theorem strPlus_of_isStr {j : Json} (h : j.isStr = true) (base : String) :
    ∃ s : String, strPlus base j = .ok s := by
  cases j <;> simp_all [Json.isStr, strPlus]

/-- The inputs on which the Realtor `parse_listing` is total: each
intermediate value (after the `safe_get ... or {}` defaulting) is a dict,
and the `permalink` value (after its `""` default) is a string.  Missing
or falsy (hence also null) intermediates satisfy this, since `or {}`
replaces them with the empty dict. -/
def realtorTame (item : Json) : Bool :=
  item.isObj &&
  (pyOrEmptyDict (safe_get item ["description"])).isObj &&
  (pyOrEmptyDict (safe_get item ["location", "address"])).isObj &&
  (pyOrEmptyDict (safe_get (pyOrEmptyDict (safe_get item ["location", "address"]))
    ["coordinate"])).isObj &&
  (pyOrEmptyDict (safe_get item ["pet_policy"])).isObj &&
  (jsonGetD item "permalink" (Json.str "")).isStr

/-- The inputs on which the Redfin `parse_listing` is total: the four
intermediate values are dicts, each of the four range values (after the
`.get(key, {})` defaulting) is a dict, and the `url` value (after its
`""` default) is a string. -/
def redfinTame (item : Json) : Bool :=
  item.isObj &&
  (pyOrEmptyDict (safe_get item ["homeData"])).isObj &&
  (pyOrEmptyDict (safe_get item ["rentalExtension"])).isObj &&
  (pyOrEmptyDict (safe_get (pyOrEmptyDict (safe_get item ["homeData"]))
    ["addressInfo"])).isObj &&
  (pyOrEmptyDict (safe_get (pyOrEmptyDict (safe_get (pyOrEmptyDict
    (safe_get item ["homeData"])) ["addressInfo"])) ["centroid", "centroid"])).isObj &&
  (jsonGetD (pyOrEmptyDict (safe_get item ["rentalExtension"]))
    "rentPriceRange" (Json.obj [])).isObj &&
  (jsonGetD (pyOrEmptyDict (safe_get item ["rentalExtension"]))
    "bedRange" (Json.obj [])).isObj &&
  (jsonGetD (pyOrEmptyDict (safe_get item ["rentalExtension"]))
    "bathRange" (Json.obj [])).isObj &&
  (jsonGetD (pyOrEmptyDict (safe_get item ["rentalExtension"]))
    "sqftRange" (Json.obj [])).isObj &&
  (jsonGetD (pyOrEmptyDict (safe_get item ["homeData"])) "url" (Json.str "")).isStr

/-- The accessor `getRange` succeeds when the extension and the stored range are dicts. -/
theorem getRange_of_isObj {ext : Json} (hext : ext.isObj = true) {key : String}
    (hrange : (jsonGetD ext key (Json.obj [])).isObj = true) (sub : String) :
    Redfin.getRange ext key sub =
      .ok (jsonGetD (jsonGetD ext key (Json.obj [])) sub .null) := by
  unfold Redfin.getRange
  rw [dictGet_of_isObj hext, exceptOkBind, dictGet_of_isObj hrange]

/-- C3 (amended): `parse_listing` is total on tame objects — relevant
intermediate fields absent, falsy, or dicts; range and url/permalink
fields absent or of the expected type — and then returns a record with
every declared field present; on `{}` every leaf is null and the url is
the bare provider base, showing that an unresolved nested path yields
null at the leaf.  (It is NOT total on all JSON objects; see the
counterexample.) -/
theorem C3_parse_listing_total_on_tame :
    (∀ item : Json, realtorTame item = true →
      isOkE (Realtor.parse_listing item) = true) ∧
    (∀ item : Json, redfinTame item = true →
      isOkE (Redfin.parse_listing item) = true) ∧
    Realtor.parse_listing (Json.obj []) = .ok
      { listing_id := Json.null, list_price := Json.null, beds := Json.null,
        baths := Json.null, sqft := Json.null, list_date := Json.null,
        zip_code := Json.null, latitude := Json.null, longitude := Json.null,
        address_line := Json.null,
        url := "https://www.realtor.com/rentals/details/",
        pet_cats := Json.null, pet_dogs := Json.null } ∧
    Redfin.parse_listing (Json.obj []) = .ok
      { listing_id := Json.null, price_min := Json.null, price_max := Json.null,
        beds_min := Json.null, beds_max := Json.null, baths_min := Json.null,
        baths_max := Json.null, sqft_min := Json.null, sqft_max := Json.null,
        zip_code := Json.null, latitude := Json.null, longitude := Json.null,
        address_line := Json.null, url := "https://www.redfin.com" } := by
  refine ⟨?_, ?_, rfl, rfl⟩
  · intro item h
    simp only [realtorTame, Bool.and_eq_true] at h
    obtain ⟨⟨⟨⟨⟨h0, h1⟩, h2⟩, h3⟩, h4⟩, h5⟩ := h
    obtain ⟨u, hu⟩ := strPlus_of_isStr h5 "https://www.realtor.com/rentals/details/"
    simp only [Realtor.parse_listing, dictGet_of_isObj h0, dictGet_of_isObj h1,
      dictGet_of_isObj h2, dictGet_of_isObj h3, dictGet_of_isObj h4,
      exceptOkBind, hu]
    rfl
  · intro item h
    simp only [redfinTame, Bool.and_eq_true] at h
    obtain ⟨⟨⟨⟨⟨⟨⟨⟨⟨h0, h1⟩, h2⟩, h3⟩, h4⟩, h5⟩, h6⟩, h7⟩, h8⟩, h9⟩ := h
    obtain ⟨u, hu⟩ := strPlus_of_isStr h9 "https://www.redfin.com"
    simp only [Redfin.parse_listing, dictGet_of_isObj h1, dictGet_of_isObj h2,
      dictGet_of_isObj h3, dictGet_of_isObj h4,
      getRange_of_isObj h2 h5, getRange_of_isObj h2 h6,
      getRange_of_isObj h2 h7, getRange_of_isObj h2 h8,
      exceptOkBind, hu]
    rfl

/-- C3 witness: totality applied to a concrete tame Realtor object with a
populated description and to a concrete tame Redfin object with a
populated price range. -/
theorem C3_parse_listing_total_on_tame_witness :
    isOkE (Realtor.parse_listing (Json.obj
      [("description", Json.obj [("beds", Json.num 2)]),
       ("permalink", Json.str "Boston_MA")])) = true ∧
    isOkE (Redfin.parse_listing (Json.obj
      [("rentalExtension", Json.obj
        [("rentPriceRange", Json.obj [("min", Json.num 1800)])])])) = true :=
  ⟨C3_parse_listing_total_on_tame.1 _ (by decide),
   C3_parse_listing_total_on_tame.2.1 _ (by decide)⟩

/-- Keep-first dedup preserves the first occurrence for every key not yet
marked seen. -/
theorem dedupGo_find? {α : Type} (key : α → String) (l : List α) :
    ∀ (seen : List String) (k : String), k ∉ seen →
      (dedupKeepFirstGo key l seen).find? (fun r => key r == k) =
        l.find? (fun r => key r == k) := by
  induction l with
  | nil => intro seen k _; rfl
  | cons r rs ih =>
    intro seen k hk
    by_cases hmem : key r ∈ seen
    · have hne : (key r == k) = false := by
        simp only [beq_eq_false_iff_ne]
        rintro rfl
        exact hk hmem
      rw [dedupKeepFirstGo, if_pos hmem]
      simp only [List.find?_cons, hne]
      exact ih seen k hk
    · rw [dedupKeepFirstGo, if_neg hmem]
      by_cases heq : key r = k
      · have hpos : (key r == k) = true := by simp [heq]
        simp only [List.find?_cons, hpos]
      · have hne : (key r == k) = false := by simp [heq]
        simp only [List.find?_cons, hne]
        refine ih (key r :: seen) k ?_
        intro hin
        rcases List.mem_cons.mp hin with h | h
        · exact heq h.symm
        · exact hk h

/-- Keep-first dedup emits no key marked seen and no key twice. -/
theorem dedupGo_nodup {α : Type} (key : α → String) (l : List α) :
    ∀ seen : List String,
      (∀ x ∈ dedupKeepFirstGo key l seen, key x ∉ seen) ∧
      ((dedupKeepFirstGo key l seen).map key).Nodup := by
  induction l with
  | nil => intro seen; exact ⟨by simp [dedupKeepFirstGo], by simp [dedupKeepFirstGo]⟩
  | cons r rs ih =>
    intro seen
    by_cases hmem : key r ∈ seen
    · rw [dedupKeepFirstGo, if_pos hmem]
      exact ih seen
    · rw [dedupKeepFirstGo, if_neg hmem]
      obtain ⟨hsub, hnd⟩ := ih (key r :: seen)
      refine ⟨?_, ?_⟩
      · intro x hx
        rcases List.mem_cons.mp hx with rfl | hx'
        · exact hmem
        · exact fun hxs => hsub x hx' (List.mem_cons_of_mem _ hxs)
      · rw [List.map_cons, List.nodup_cons]
        refine ⟨?_, hnd⟩
        intro hkr
        obtain ⟨x, hx, hkx⟩ := List.mem_map.mp hkr
        exact hsub x hx (hkx ▸ List.mem_cons_self _ _)

/-- The id coercion `astype(str)` leaves the dedup key unchanged. -/
theorem idKey_coerce (r : IdRow) :
    idKey { r with listing_id := Json.str (pyStr r.listing_id) } = idKey r := rfl

/-- The output row of the aggregation dedup for key `k` is the coerced
first input row with that key. -/
theorem aggregateDedup_find? (rows : List IdRow) (k : String) :
    (aggregateDedup rows).find? (fun r => idKey r == k) =
      (rows.find? (fun r => idKey r == k)).map
        (fun r => { r with listing_id := Json.str (pyStr r.listing_id) }) := by
  unfold aggregateDedup drop_duplicates_first
  rw [dedupGo_find? idKey _ [] k (List.not_mem_nil k), List.find?_map]
  rfl

/-- The aggregation dedup output has pairwise-distinct keys. -/
theorem aggregateDedup_nodup (rows : List IdRow) :
    ((aggregateDedup rows).map idKey).Nodup :=
  (dedupGo_nodup idKey _ []).2

/-- The rows of the spec sentence "given records
[{id:"A",price:100},{id:"A",price:200},{id:"B",price:300}] processed in
that order". -/
def dedupExampleRows : List IdRow :=
  [⟨Json.str "A", [("price", Json.num 100)]⟩,
   ⟨Json.str "A", [("price", Json.num 200)]⟩,
   ⟨Json.str "B", [("price", Json.num 300)]⟩]

/-- C5: the aggregation dedup keeps the first-seen record per listing_id:
for every row sequence the output keys are pairwise distinct, the output
carries a key exactly when the input does, and the output's row for a key
is the input's first row with that key (its attributes intact, the id
merely passed through the `astype(str)` coercion); on the spec's example
the result is exactly the first "A" row (price 100) and the "B" row. -/
theorem C5_dedup_keeps_first_seen :
    (∀ rows : List IdRow, ((aggregateDedup rows).map idKey).Nodup) ∧
    (∀ (rows : List IdRow) (k : String),
      (aggregateDedup rows).find? (fun r => idKey r == k) =
        (rows.find? (fun r => idKey r == k)).map
          (fun r => { r with listing_id := Json.str (pyStr r.listing_id) })) ∧
    (∀ (rows : List IdRow) (k : String),
      k ∈ (aggregateDedup rows).map idKey ↔ k ∈ rows.map idKey) ∧
    aggregateDedup dedupExampleRows =
      [⟨Json.str "A", [("price", Json.num 100)]⟩,
       ⟨Json.str "B", [("price", Json.num 300)]⟩] := by
  refine ⟨fun rows => aggregateDedup_nodup rows, aggregateDedup_find?, ?_, rfl⟩
  intro rows k
  have hmem : ∀ (l : List IdRow),
      k ∈ l.map idKey ↔ (l.find? (fun r => idKey r == k)).isSome := by
    intro l
    rw [List.find?_isSome]
    constructor
    · intro hk
      obtain ⟨r, hr, hkr⟩ := List.mem_map.mp hk
      exact ⟨r, hr, by simp [hkr]⟩
    · rintro ⟨r, hr, hkr⟩
      exact List.mem_map.mpr ⟨r, hr, by simpa using hkr⟩
  rw [hmem, hmem, aggregateDedup_find?]
  simp only [Option.isSome_map']

/-- C6: records whose `listing_id` is absent (stored None) are coerced by
`astype(str)` to the literal string "None" before deduplication, so at
most one row keyed "None" survives per source; when any missing-id record
exists (and no genuine id renders as "None"), the surviving "None" row is
the first missing-id record in processing order, its other attributes
intact. -/
theorem C6_missing_ids_collapse (rows : List IdRow)
    (hid : ∀ r ∈ rows, pyStr r.listing_id = "None" → r.listing_id = Json.null) :
    (∀ r ∈ rows, r.listing_id = Json.null → idKey r = "None") ∧
    (aggregateDedup rows).countP (fun r => idKey r == "None") ≤ 1 ∧
    ((∃ r ∈ rows, r.listing_id = Json.null) →
      ∃ r0, rows.find? (fun r => idKey r == "None") = some r0 ∧
        r0.listing_id = Json.null ∧
        (aggregateDedup rows).find? (fun r => idKey r == "None") =
          some { r0 with listing_id := Json.str "None" }) := by
  refine ⟨?_, ?_, ?_⟩
  · intro r _ h
    simp [idKey, h, pyStr]
  · have hco : (aggregateDedup rows).countP (fun r => idKey r == "None") =
        ((aggregateDedup rows).map idKey).count "None" := by
      rw [List.count, List.countP_map]
      rfl
    rw [hco]
    exact List.nodup_iff_count_le_one.mp (aggregateDedup_nodup rows) "None"
  · rintro ⟨r, hr, hnull⟩
    have hsome : (rows.find? (fun r => idKey r == "None")).isSome := by
      rw [List.find?_isSome]
      exact ⟨r, hr, by simp [idKey, hnull, pyStr]⟩
    obtain ⟨r0, hfind⟩ := Option.isSome_iff_exists.mp hsome
    have hr0mem : r0 ∈ rows := List.mem_of_find?_eq_some hfind
    have hr0key : pyStr r0.listing_id = "None" := by
      have := List.find?_some hfind
      simpa [idKey] using this
    refine ⟨r0, hfind, hid r0 hr0mem hr0key, ?_⟩
    rw [aggregateDedup_find?, hfind]
    simp [hr0key]

/-- Concrete rows for the C6 witness: one genuine id and two missing-id
records. -/
def c6WitnessRows : List IdRow :=
  [⟨Json.str "A", []⟩,
   ⟨Json.null, [("price", Json.num 100)]⟩,
   ⟨Json.null, []⟩]

/-- C6 witness: the statement applied to three concrete rows, two of
which lack an id. -/
theorem C6_missing_ids_collapse_witness :
    (∀ r ∈ c6WitnessRows, r.listing_id = Json.null → idKey r = "None") ∧
    (aggregateDedup c6WitnessRows).countP (fun r => idKey r == "None") ≤ 1 ∧
    ((∃ r ∈ c6WitnessRows, r.listing_id = Json.null) →
      ∃ r0, c6WitnessRows.find? (fun r => idKey r == "None") = some r0 ∧
        r0.listing_id = Json.null ∧
        (aggregateDedup c6WitnessRows).find? (fun r => idKey r == "None") =
          some { r0 with listing_id := Json.str "None" }) :=
  C6_missing_ids_collapse c6WitnessRows (by
    intro r hr h
    simp only [c6WitnessRows, List.mem_cons, List.not_mem_nil, or_false] at hr
    rcases hr with rfl | rfl | rfl
    · exact absurd h (by decide)
    · rfl
    · rfl)

/-- The short-page loop breaks at the first short-or-empty page: when
some page `k` in reach of the fuel is short, the loop returns, stopping
at a short page no later than `k`, with every earlier requested page
full. -/
theorem collectShortGo_breaks (pageData : ℕ → List Json) (k : ℕ)
    (hk : (pageData k).length < 200) :
    ∀ (fuel page : ℕ) (acc : List Json), page ≤ k → k < page + fuel →
      ∃ acc' p, collectShortGo pageData fuel page acc = some (acc', p) ∧
        page ≤ p ∧ p ≤ k ∧ (pageData p).length < 200 ∧
        ∀ q, page ≤ q → q < p → 200 ≤ (pageData q).length := by
  intro fuel
  induction fuel with
  | zero => intro page acc hpk hlt; omega
  | succ fuel ih =>
    intro page acc hpk hlt
    simp only [collectShortGo]
    by_cases hemp : (pageData page).isEmpty
    · rw [if_pos hemp]
      refine ⟨acc, page, rfl, le_refl _, hpk, ?_, fun q hq hqp => absurd hqp (by omega)⟩
      rw [List.isEmpty_iff.mp hemp]
      simp
    · rw [if_neg hemp]
      by_cases hshortp : (pageData page).length < 200
      · rw [if_pos hshortp]
        exact ⟨acc ++ pageData page, page, rfl, le_refl _, hpk, hshortp,
          fun q hq hqp => absurd hqp (by omega)⟩
      · rw [if_neg hshortp]
        have hpk' : page + 1 ≤ k := by
          rcases Nat.lt_or_ge page k with h | h
          · omega
          · exfalso
            have : page = k := by omega
            exact hshortp (this ▸ hk)
        obtain ⟨acc', p, heq, hge, hle, hsh, hfull⟩ :=
          ih (page + 1) (acc ++ pageData page) hpk' (by omega)
        refine ⟨acc', p, heq, by omega, hle, hsh, ?_⟩
        intro q hq hqp
        rcases Nat.eq_or_lt_of_le hq with rfl | h
        · omega
        · exact hfull q (by omega) hqp

/-- The declared-total loop breaks on its own once the fuel covers the
missing record count: each surviving iteration accumulates at least one
record, so fuel `total - acc.length` suffices, and the loop ends on an
empty page or with the accumulated count reaching the total. -/
theorem collectTotalGo_breaks (pageData : ℕ → List Json × ℕ) (total : ℕ) :
    ∀ (fuel page : ℕ) (acc : List Json),
      acc.length < total → total ≤ acc.length + fuel →
      ∃ acc' p, collectTotalGo pageData fuel page (some total) acc = some (acc', p) ∧
        ((pageData p).1 = [] ∨ total ≤ acc'.length) := by
  intro fuel
  induction fuel with
  | zero => intro page acc h1 h2; omega
  | succ fuel ih =>
    intro page acc h1 h2
    simp only [collectTotalGo, Option.getD_some]
    by_cases hemp : (pageData page).1.isEmpty
    · rw [if_pos hemp]
      exact ⟨acc, page, rfl, Or.inl (List.isEmpty_iff.mp hemp)⟩
    · rw [if_neg hemp]
      by_cases hge : total ≤ (acc ++ (pageData page).1).length
      · rw [if_pos hge]
        exact ⟨acc ++ (pageData page).1, page, rfl, Or.inr hge⟩
      · rw [if_neg hge]
        have hlen : 1 ≤ (pageData page).1.length := by
          rcases Nat.eq_zero_or_pos (pageData page).1.length with h | h
          · exact absurd (List.isEmpty_iff.mpr (List.length_eq_zero.mp h)) hemp
          · exact h
        refine ih (page + 1) (acc ++ (pageData page).1) (by omega) ?_
        rw [List.length_append] at hge ⊢
        omega

/-- C8: pagination terminates for every partition.  Short-page policy
(Realtor loops): as soon as the page after the expected dataset —
page ⌈expected/200⌉ + 1 — is short, the loop returns within
⌈expected/200⌉ + 1 requested pages, stopping at the first page with
fewer than 200 records (all earlier pages full).  Declared-total policy
(Redfin loops): for every page stream the loop returns with fuel
(first page's declared total) + 2, ending on an empty page or once the
accumulated count reaches the total declared by page 1. -/
theorem C8_pagination_terminates :
    (∀ (pageData : ℕ → List Json) (expected : ℕ),
      (pageData ((expected + 199) / 200 + 1)).length < 200 →
      ∃ acc p, collectShort pageData ((expected + 199) / 200 + 2) = some (acc, p) ∧
        p ≤ (expected + 199) / 200 + 1 ∧ (pageData p).length < 200 ∧
        ∀ q, 1 ≤ q → q < p → 200 ≤ (pageData q).length) ∧
    (∀ pageData : ℕ → List Json × ℕ,
      ∃ acc p, collectTotal pageData = some (acc, p) ∧
        ((pageData p).1 = [] ∨ (pageData 1).2 ≤ acc.length)) := by
  constructor
  · intro pageData expected hshort
    obtain ⟨acc, p, heq, _, hle, hsh, hfull⟩ :=
      collectShortGo_breaks pageData ((expected + 199) / 200 + 1) hshort
        ((expected + 199) / 200 + 2) 1 [] (by omega) (by omega)
    exact ⟨acc, p, heq, hle, hsh, hfull⟩
  · intro pageData
    rw [collectTotal]
    have h2 : (pageData 1).2 + 2 = ((pageData 1).2 + 1) + 1 := rfl
    rw [h2]
    simp only [collectTotalGo, Option.getD_none]
    by_cases hemp : (pageData 1).1.isEmpty
    · rw [if_pos hemp]
      exact ⟨[], 1, rfl, Or.inl (List.isEmpty_iff.mp hemp)⟩
    · rw [if_neg hemp]
      by_cases hge : (pageData 1).2 ≤ ([] ++ (pageData 1).1).length
      · rw [if_pos hge]
        exact ⟨[] ++ (pageData 1).1, 1, rfl, Or.inr hge⟩
      · rw [if_neg hge]
        exact collectTotalGo_breaks pageData (pageData 1).2 ((pageData 1).2 + 1) 2
          ([] ++ (pageData 1).1) (by omega) (by omega)

/-- Page stream for the C8 witness: a dataset of 250 records served as a
full page of 200 and a short page of 50. -/
def c8WitnessPages : ℕ → List Json := fun k =>
  if k = 1 then List.replicate 200 Json.null
  else if k = 2 then List.replicate 50 Json.null
  else []

/-- C8 witness: termination applied to the 250-record two-page stream
(short-page policy) and to a constant stream declaring a total of 3
(declared-total policy). -/
theorem C8_pagination_terminates_witness :
    (∃ acc p, collectShort c8WitnessPages ((250 + 199) / 200 + 2) = some (acc, p) ∧
      p ≤ (250 + 199) / 200 + 1 ∧ (c8WitnessPages p).length < 200 ∧
      ∀ q, 1 ≤ q → q < p → 200 ≤ (c8WitnessPages q).length) ∧
    (∃ acc p, collectTotal (fun _ => ([Json.null], 3)) = some (acc, p) ∧
      (((fun (_ : ℕ) => ([Json.null], 3)) p).1 = [] ∨
        ((fun (_ : ℕ) => (([Json.null] : List Json), 3)) 1).2 ≤ acc.length)) :=
  ⟨C8_pagination_terminates.1 c8WitnessPages 250 (by decide),
   C8_pagination_terminates.2 (fun _ => ([Json.null], 3))⟩

/-- Every run of the Boston Realtor attempt loop either returns some
attempt's successful payload or returns exactly the empty list. -/
theorem bosFetchGo_empty_or_success (resp : ℕ → Attempt) (b : ℕ) :
    ∀ (rem attempt : ℕ) (waits : List ℕ),
      (BosRealtor.fetchGo resp b rem attempt waits).1 = [] ∨
      ∃ a props, resp a = .success props ∧
        (BosRealtor.fetchGo resp b rem attempt waits).1 = props := by
  intro rem
  induction rem with
  | zero => intro attempt waits; left; rfl
  | succ rem ih =>
    intro attempt waits
    rw [BosRealtor.fetchGo]
    cases hresp : resp attempt with
    | success props => exact Or.inr ⟨attempt, props, hresp, rfl⟩
    | readTimeout => exact ih (attempt + 1) _
    | httpError s =>
      dsimp only
      by_cases h504 : s = 504
      · rw [if_pos h504]
        exact ih (attempt + 1) _
      · rw [if_neg h504]
        exact Or.inl rfl
    | transportError => exact Or.inl rfl

/-- Every run of the Redfin attempt loop either returns some attempt's
successful payload or returns exactly the empty page `([], 0)`. -/
theorem redfinFetchGo_empty_or_success (resp : ℕ → RAttempt) (b : ℕ) :
    ∀ (rem attempt : ℕ) (waits : List ℕ),
      (Redfin.fetchGo resp b rem attempt waits).1 = ([], 0) ∨
      ∃ a results total, resp a = .success results total ∧
        (Redfin.fetchGo resp b rem attempt waits).1 = (results, total) := by
  intro rem
  induction rem with
  | zero => intro attempt waits; left; rfl
  | succ rem ih =>
    intro attempt waits
    rw [Redfin.fetchGo]
    cases hresp : resp attempt with
    | success results total => exact Or.inr ⟨attempt, results, total, hresp, rfl⟩
    | readTimeout => exact ih (attempt + 1) _
    | httpError s =>
      dsimp only
      by_cases h504 : s = 504
      · rw [if_pos h504]
        exact ih (attempt + 1) _
      · rw [if_neg h504]
        exact Or.inl rfl
    | transportError => exact Or.inl rfl

/-- C10: every non-success fetch outcome — fatal HTTP status, transport
error, or retry exhaustion — returns the very value of a successful page
with zero listings: `[]` for the Realtor fetch, `([], 0)` for the Redfin
fetch (whose successful empty page is also `([], 0)`), so the caller
cannot distinguish end-of-data from failure; consequently in the
declared-total loop a page-1 value of `([], 0)` (which any page-1 failure
produces) fixes the declared total at 0 and ends the partition empty
after one page. -/
theorem C10_failure_collapses_to_empty :
    (∀ resp : ℕ → Attempt,
      (BosRealtor.fetch_realtor_listings resp).1 = [] ∨
      ∃ a props, resp a = .success props ∧
        (BosRealtor.fetch_realtor_listings resp).1 = props) ∧
    (∀ resp : ℕ → RAttempt,
      (Redfin.fetch_redfin_listings resp).1 = ([], 0) ∨
      ∃ a results total, resp a = .success results total ∧
        (Redfin.fetch_redfin_listings resp).1 = (results, total)) ∧
    (Redfin.fetch_redfin_listings (fun _ => .success [] 0)).1 = ([], 0) ∧
    (∀ pageData : ℕ → List Json × ℕ, pageData 1 = ([], 0) →
      collectTotal pageData = some ([], 1)) := by
  refine ⟨?_, ?_, rfl, ?_⟩
  · intro resp
    exact bosFetchGo_empty_or_success resp 2 3 1 []
  · intro resp
    exact redfinFetchGo_empty_or_success resp 2 3 1 []
  · intro pageData h
    simp [collectTotal, collectTotalGo, h]

/-- C10 witness: the declared-total clause applied to a stream whose
first page fails (hence is `([], 0)`), and the Realtor clause applied to
an always-failing transport stream. -/
theorem C10_failure_collapses_to_empty_witness :
    collectTotal (fun _ => (([] : List Json), 0)) = some ([], 1) ∧
    ((BosRealtor.fetch_realtor_listings (fun _ => .transportError)).1 = [] ∨
      ∃ a props, (fun (_ : ℕ) => Attempt.transportError) a = .success props ∧
        (BosRealtor.fetch_realtor_listings (fun _ => .transportError)).1 = props) :=
  ⟨C10_failure_collapses_to_empty.2.2.2 _ rfl,
   C10_failure_collapses_to_empty.1 _⟩
